import Mathlib

/-!
Shallow embedding of the study-planner frontend core
(`src/frontend/src/App.jsx`) used to verify the specification claims.

Conventions of the embedding:
* JS numbers are modelled as `ℚ` (the values manipulated here are exact
  decimals); `NaN` is modelled as `Option ℚ`s `none` where it can arise.
* JS `Date` objects, which this app always truncates to local midnight,
  are modelled as civil calendar dates (`CivilDate`); a fixed-offset
  timezone is assumed, so a day difference is an exact integer.
* `undefined`/`null` string fields are `Option String`; the JS falsiness
  of the empty string is modelled explicitly where the source relies on it.
-/

namespace StudyPlanner

/-- A calendar date (what `new Date("YYYY-MM-DDT00:00:00")` produces,
truncated to midnight). -/
structure CivilDate where
  year : Nat
  month : Nat
  day : Nat
deriving DecidableEq, Repr

def isLeapYear (y : Nat) : Bool :=
  (y % 4 = 0 && y % 100 != 0) || y % 400 = 0

def daysInMonth (y m : Nat) : Nat :=
  if m = 2 then (if isLeapYear y then 29 else 28)
  else if m = 4 || m = 6 || m = 9 || m = 11 then 30
  else 31

/-- Days since the Unix epoch of a civil date (standard civil-from-days
algorithm); this is `Date.getTime()` of the midnight instant divided by
86400000 under a fixed-offset timezone. -/
def CivilDate.toDays (d : CivilDate) : Int :=
  let y : Int := if d.month ≤ 2 then (d.year : Int) - 1 else (d.year : Int)
  let era : Int := Int.fdiv y 400
  let yoe : Int := y - era * 400
  let mp : Int := ((d.month : Int) + 9) % 12
  let doy : Int := (153 * mp + 2) / 5 + (d.day : Int) - 1
  let doe : Int := yoe * 365 + yoe / 4 - yoe / 100 + doy
  era * 146097 + doe - 719468

/-- Character groups of a list split on a separator (the shape of JS
`String.prototype.split`). -/
def splitCharsOn (sep : Char) : List Char → List (List Char)
  | [] => [[]]
  | ch :: rest =>
    match splitCharsOn sep rest with
    | [] => [[ch]]
    | group :: groups =>
      if ch = sep then [] :: group :: groups else (ch :: group) :: groups

/-- Decimal value of a digit character. -/
def digitVal (c : Char) : Nat := c.toNat - 48

/-- The natural number written by a list of decimal digits. -/
def parseNatDigits (l : List Char) : Nat :=
  l.foldl (fun acc c => acc * 10 + digitVal c) 0

/-- `parseISODate` (App.jsx:1689-1694): `new Date(s + "T00:00:00")` applied
to the ISO `YYYY-MM-DD` dates this app produces; a string that is not a
calendar-valid date of that format gives an invalid date, returned as
`none`.  The `if (!dateString) return null` guard covers
`undefined`/`null`/`""`. -/
def parseISODate (dateString : Option String) : Option CivilDate :=
  match dateString with
  | none => none
  | some s =>
    match splitCharsOn '-' s.data with
    | [y, m, d] =>
      if y.length = 4 && m.length = 2 && d.length = 2
          && y.all Char.isDigit && m.all Char.isDigit && d.all Char.isDigit then
        let yn := parseNatDigits y
        let mn := parseNatDigits m
        let dn := parseNatDigits d
        if 1 ≤ mn && mn ≤ 12 && 1 ≤ dn && dn ≤ daysInMonth yn mn then
          some ⟨yn, mn, dn⟩
        else none
      else none
    | _ => none

/-- `daysUntilDate` (App.jsx:1696-1703): both dates are zeroed to midnight,
so the millisecond difference is an exact whole number of days and the
`Math.ceil` is the identity. -/
def daysUntilDate (target reference : CivilDate) : Int :=
  target.toDays - reference.toDays

def MONTH_LABELS : List String :=
  ["Jan", "Feb", "Mar", "Apr", "May", "Jun",
   "Jul", "Aug", "Sep", "Oct", "Nov", "Dec"]

/-- `formatMonthDay` (App.jsx:1636-1638); `getMonth()` is zero-based. -/
def formatMonthDay (d : CivilDate) : String :=
  (MONTH_LABELS.getD (d.month - 1) "undefined") ++ " " ++ toString d.day

def isWhitespaceChar (c : Char) : Bool :=
  c = ' ' || c = '\t' || c = '\n' || c = '\r'

/-- JS `String.prototype.trim`: strip whitespace from both ends. -/
def strTrim (s : String) : String :=
  String.mk (((s.data.dropWhile isWhitespaceChar).reverse.dropWhile
    isWhitespaceChar).reverse)

def lowerChar (c : Char) : Char :=
  if 'A' ≤ c && c ≤ 'Z' then Char.ofNat (c.toNat + 32) else c

/-- JS `String.prototype.toLowerCase` on the ASCII event-type strings. -/
def strToLower (s : String) : String :=
  String.mk (s.data.map lowerChar)

/-- JS `a || b` for a possibly-absent string against a string default
(the empty string is falsy). -/
def jsOrStr (a : Option String) (dflt : String) : String :=
  match a with
  | none => dflt
  | some s => if s = "" then dflt else s

/-- JS `a || b` where both sides are possibly-absent strings. -/
def jsOrOpt (a b : Option String) : Option String :=
  match a with
  | none => b
  | some s => if s = "" then b else some s

/-- JS falsiness of a possibly-absent string (`!x`). -/
def strFalsy (a : Option String) : Bool :=
  match a with
  | none => true
  | some s => s = ""

/-- The JSON value found in a task's `importance` field, as seen by
`Number(task.importance || 0)`: absent/null (coerced to `0`), a truthy
value that is not a number (coerced to `NaN`), or a finite number. -/
inductive ImportanceField where
  | absent
  | nonNumeric
  | num (q : ℚ)
deriving DecidableEq, Repr

/-- `Number(task.importance || 0)`, with `none` standing for `NaN`. -/
def importanceNumber : ImportanceField → Option ℚ
  | .absent => some 0
  | .nonNumeric => none
  | .num q => some q

/-- A task as returned by `GET /api/tasks` and consumed by the dashboard. -/
structure Task where
  id : Nat
  title : String
  course : Option String
  task_type : Option String
  due_date : Option String
  estimated_minutes : Option ℚ
  importance : ImportanceField
  status : String
deriving DecidableEq, Repr

/-- `TASK_TYPE_WEIGHTS` (App.jsx:19-26) as a lookup. -/
def TASK_TYPE_WEIGHTS (v : String) : Option ℚ :=
  if v = "assignment" then some 1
  else if v = "essay" then some 2
  else if v = "discussion" then some 1
  else if v = "project" then some 3
  else if v = "exam" then some 3
  else if v = "lecture" then some 1
  else none

/-- `getTaskTypeWeight` (App.jsx:1726-1728): `TASK_TYPE_WEIGHTS[value] ?? 1`. -/
def getTaskTypeWeight (value : Option String) : ℚ :=
  (value.bind TASK_TYPE_WEIGHTS).getD 1

/-- The importance contribution in `deriveRisk` (App.jsx:1777-1778);
`none` (`NaN`) fails both comparisons and contributes 0. -/
def importanceBonus : Option ℚ → ℚ
  | none => 0
  | some v => if 4 ≤ v then 2 else if 3 ≤ v then 1 else 0

/-- The deadline contribution in `deriveRisk` (App.jsx:1780-1784);
`none` means `daysToDeadline === null` and contributes nothing. -/
def deadlineBonus : Option Int → ℚ
  | none => 0
  | some d => if d ≤ 2 then 3 else if d ≤ 5 then 2 else if d ≤ 10 then 1 else 0

/-- `daysToDeadline` as computed inside `deriveRisk` (App.jsx:1768-1774). -/
def daysToDeadline (now : CivilDate) (t : Task) : Option Int :=
  (parseISODate t.due_date).map (fun c => daysUntilDate c now)

/-- The final banding of the score in `deriveRisk` (App.jsx:1786-1788). -/
def scoreToLevel (score : ℚ) : String :=
  if 6 ≤ score then "high" else if 3 ≤ score then "medium" else "low"

/-- `deriveRisk` (App.jsx:1765-1789). -/
def deriveRisk (now : CivilDate) (t : Task) : String :=
  scoreToLevel
    (getTaskTypeWeight t.task_type
      + importanceBonus (importanceNumber t.importance)
      + deadlineBonus (daysToDeadline now t))

/-- The order low < medium < high on risk levels. -/
def riskOrder (level : String) : Nat :=
  if level = "high" then 2 else if level = "medium" then 1 else 0

/-- `activeTasks` (App.jsx:209-212). -/
def activeTasks (tasks : List Task) : List Task :=
  tasks.filter (fun t => t.status ≠ "done")

/-- An element of `tasksWithDueDates` (App.jsx:213-225): the task spread
together with its parsed `dueDate` and `daysUntil`. -/
structure DatedTask extends Task where
  dueDateC : CivilDate
  daysUntil : Int
deriving DecidableEq, Repr

/-- `tasksWithDueDates` (App.jsx:213-225): tasks whose `due_date` parses,
extended with the parsed date and `daysUntilDate(dueDate)`; the
`map`-to-null-then-`filter(Boolean)` pair is a `filterMap`. -/
def tasksWithDueDates (now : CivilDate) (tasks : List Task) : List DatedTask :=
  tasks.filterMap (fun t =>
    (parseISODate t.due_date).map (fun c =>
      { toTask := t, dueDateC := c, daysUntil := daysUntilDate c now }))

/-- `activeTasksWithDueDates` (App.jsx:226-229). -/
def activeTasksWithDueDates (now : CivilDate) (tasks : List Task) : List DatedTask :=
  (tasksWithDueDates now tasks).filter (fun t => t.status ≠ "done")

def insertByDue (a : DatedTask) : List DatedTask → List DatedTask
  | [] => [a]
  | b :: bs =>
    if a.dueDateC.toDays ≤ b.dueDateC.toDays then a :: b :: bs
    else b :: insertByDue a bs

/-- The stable ascending sort `.sort((a, b) => a.dueDate - b.dueDate)` used
throughout the dashboard (ES2019 `Array.prototype.sort` is stable);
realized as a stable insertion sort on the date timestamp. -/
def sortByDue : List DatedTask → List DatedTask
  | [] => []
  | a :: rest => insertByDue a (sortByDue rest)

/-- `upcomingTasks` (App.jsx:230-234); `daysUntil` is never null for a
`DatedTask`, so the `!== null` conjunct is vacuous. -/
def upcomingTasks (now : CivilDate) (tasks : List Task) : List DatedTask :=
  sortByDue ((activeTasksWithDueDates now tasks).filter (fun t => 0 ≤ t.daysUntil))

/-- The accumulator of `riskCounts` (App.jsx:300-307). -/
structure RiskCounts where
  high : Nat
  medium : Nat
  low : Nat
deriving DecidableEq, Repr

/-- One step of the `riskCounts` accumulation (App.jsx:302-305):
`counts[deriveRisk(task)] += 1`; `deriveRisk` only ever returns the three
keys. -/
def riskCountsStep (now : CivilDate) (c : RiskCounts) (t : Task) : RiskCounts :=
  if deriveRisk now t = "high" then { c with high := c.high + 1 }
  else if deriveRisk now t = "medium" then { c with medium := c.medium + 1 }
  else { c with low := c.low + 1 }

/-- `riskCounts` (App.jsx:300-307). -/
def riskCounts (now : CivilDate) (tasks : List Task) : RiskCounts :=
  (activeTasks tasks).foldl (riskCountsStep now) ⟨0, 0, 0⟩

/-- `Number(x.toFixed(2))` on the exact rational value: rounding to two
decimal places, half away from zero for the nonnegative values used here. -/
def toFixed2 (q : ℚ) : ℚ := (round (100 * q) : ℤ) / 100

/-- `riskScore` (App.jsx:308-315): `null` when there is no active task,
else the weighted count average rounded to two decimals. -/
def riskScore (now : CivilDate) (tasks : List Task) : Option ℚ :=
  let total := (activeTasks tasks).length
  if total = 0 then none
  else
    let c := riskCounts now tasks
    some (toFixed2 ((c.high * 1 + c.medium * (3/5) + c.low * (1/5)) / total))

/-- `riskLabel` (App.jsx:316-323). -/
def riskLabel (now : CivilDate) (tasks : List Task) : String :=
  match riskScore now tasks with
  | none => "No data"
  | some s => if 3/5 ≤ s then "High" else if 7/20 ≤ s then "Moderate" else "Low"

/-- Rule 1 of `recommendations` (App.jsx:371-380): the message pushed for
the earliest-due high-risk task, when one exists. -/
def rule1 (now : CivilDate) (tasks : List Task) : Option String :=
  (sortByDue ((activeTasksWithDueDates now tasks).filter
      (fun t => deriveRisk now t.toTask = "high"))).head?.map
    (fun t =>
      "Prioritize " ++ t.title ++ " for " ++ jsOrStr t.course "General"
        ++ " by " ++ formatMonthDay t.dueDateC ++ ".")

/-- Rule 2 of `recommendations` (App.jsx:381-387): the message for the
earliest-due task with estimated effort of at least 120 minutes. -/
def rule2 (now : CivilDate) (tasks : List Task) : Option String :=
  (sortByDue ((activeTasksWithDueDates now tasks).filter
      (fun t => 120 ≤ t.estimated_minutes.getD 0))).head?.map
    (fun t =>
      "Split " ++ t.title ++ " into smaller blocks before "
        ++ formatMonthDay t.dueDateC ++ ".")

/-- Rule 3 of `recommendations` (App.jsx:388-394): the message for the first
upcoming task due within two days. -/
def rule3 (now : CivilDate) (tasks : List Task) : Option String :=
  ((upcomingTasks now tasks).filter
      (fun t => 0 ≤ t.daysUntil && t.daysUntil ≤ 2)).head?.map
    (fun t =>
      "Schedule time for " ++ t.title ++ " due "
        ++ formatMonthDay t.dueDateC ++ ".")

/-- Rule 4 of `recommendations` (App.jsx:395-398): the message for the first
active task with no due date. -/
def rule4 (tasks : List Task) : Option String :=
  ((activeTasks tasks).filter (fun t => strFalsy t.due_date)).head?.map
    (fun t => "Add a due date for " ++ t.title ++ " to keep the plan accurate.")

/-- The default emitted when no rule fired (App.jsx:399-401). -/
def recommendationsDefault : String :=
  "Add tasks to receive recommendations tailored to your week."

/-- The guarded `items.push` pattern of rules 2-4 (`cond && items.length < 3`). -/
def pushCapped (items : List String) : Option String → List String
  | some m => if items.length < 3 then items ++ [m] else items
  | none => items

/-- `recommendations` (App.jsx:369-403): the four rules evaluated in order,
rules 2-4 guarded by `items.length < 3`, the default when nothing fired,
and the final `items.slice(0, 3)`. -/
def recommendations (now : CivilDate) (tasks : List Task) : List String :=
  let i1 := match rule1 now tasks with
    | some m => [m]
    | none => []
  let i2 := pushCapped i1 (rule2 now tasks)
  let i3 := pushCapped i2 (rule3 now tasks)
  let i4 := pushCapped i3 (rule4 tasks)
  if i4.isEmpty then [recommendationsDefault] else i4.take 3

/-- `mapEventTypeToTaskType` (App.jsx:1739-1749). -/
def mapEventTypeToTaskType (eventType : Option String) : Option String :=
  match eventType with
  | none => none
  | some s =>
    if s = "" then none
    else
      let normalized := strToLower s
      if normalized = "exam" || normalized = "quiz" then some "exam"
      else if normalized = "project" then some "project"
      else if normalized = "assignment" || normalized = "lab" then some "assignment"
      else if normalized = "reading" then some "discussion"
      else if normalized = "essay" then some "essay"
      else if normalized = "lecture" then some "lecture"
      else none

/-- One event of the upload response consumed by `handleFileChange`
(App.jsx:446-457). -/
structure UploadEvent where
  id : Nat
  title : String
  date : Option String
  type : Option String
  confidence : Option ℚ
deriving DecidableEq, Repr

/-- One reviewable extraction as held in the `extractions` state; `course`
is not set by `handleFileChange` but the confirm flow reads it
(`item.course || courseLabel`), so it is carried as optional. -/
structure ExtractionItem where
  id : Nat
  title : String
  dueDate : Option String
  type : String
  taskType : Option String
  confidence : ℚ
  status : String
  course : Option String := none
deriving DecidableEq, Repr

/-- The `setExtractions` mapping of `handleFileChange` (App.jsx:447-457):
`confidence ?? 0` and the 0.75 auto-accept threshold. -/
def toExtraction (event : UploadEvent) : ExtractionItem :=
  { id := event.id
    title := event.title
    dueDate := event.date
    type := jsOrStr event.type "deadline"
    taskType := mapEventTypeToTaskType event.type
    confidence := event.confidence.getD 0
    status := if 3/4 ≤ event.confidence.getD 0 then "accepted" else "pending" }

/-- The body of the per-candidate `POST /api/tasks` issued by
`handleConfirm` (App.jsx:516-530), together with the resulting task's
lifecycle status.  `status`: Modelled from the spec: the backend handler of
`POST /api/tasks` is not under `src/`; per spec section 4.3 each
materialized task has status `pending` (the body sends none). -/
structure CreatedTask where
  title : String
  course : Option String
  task_type : Option String
  due_date : Option String
  estimated_minutes : Option ℚ
  importance : Option ℚ
  status : String
deriving DecidableEq, Repr

/-- The task body built from one candidate extraction (App.jsx:522-529). -/
def mkTaskBody (courseLabel : Option String) (item : ExtractionItem) : CreatedTask :=
  { title := strTrim item.title
    course := jsOrOpt item.course courseLabel
    task_type := jsOrOpt item.taskType (mapEventTypeToTaskType (some item.type))
    due_date := jsOrOpt item.dueDate none
    estimated_minutes := none
    importance := none
    status := "pending" }

/-- The slice of React state the confirm flow reads and writes, plus the
multiset of tasks the backend has created (`tasksCreated` accumulates the
server-side effect of every successful `POST /api/tasks`). -/
structure ConfirmState where
  userId : Option String
  fileName : String
  uploadState : String
  error : String
  extractions : List ExtractionItem
  tasksCreated : List CreatedTask
deriving DecidableEq, Repr

/-- `handleConfirm` (App.jsx:474-558), as the state transformer from the
state at click time to the settled state after the awaited calls finish.

* `courseLabel` abstracts the value of lines 507-509
  (`extractCourseFromFilename(fileName) || ...`), which no verified
  property inspects; the theorems hold for every labeling.
* `postOk n` tells whether the `POST /api/tasks` for the n-th candidate
  succeeds.  `Promise.all` issues every request, so each successful POST
  creates its task on the server even when another one fails; a failure
  only steers the client into the catch branch (state back to review, an
  error surfaced).
* `failMsg` is the message of the first rejection
  (`err?.message || "Failed to add tasks."`). -/
def handleConfirm (courseLabel : Option String) (postOk : Nat → Bool)
    (failMsg : String) (s : ConfirmState) : ConfirmState :=
  if s.userId.isNone then
    { s with error := "Sign in to add tasks from a syllabus." }
  else if s.extractions.isEmpty then
    { s with error := "No items found. Try another PDF or add tasks manually." }
  else
    let accepted := s.extractions.filter (fun i => i.status = "accepted")
    let candidates :=
      if ¬accepted.isEmpty then accepted
      else s.extractions.filter (fun i => i.status ≠ "rejected")
    if candidates.isEmpty then
      { s with error := "Select at least one item to add." }
    else if ¬(candidates.filter (fun i => strTrim i.title = "")).isEmpty then
      { s with error := "Each extracted item needs a title before confirming." }
    else
      let promoted :=
        if accepted.isEmpty then
          s.extractions.map (fun i =>
            if i.status ≠ "rejected" then { i with status := "accepted" } else i)
        else s.extractions
      let bodies := candidates.map (mkTaskBody courseLabel)
      let created := (bodies.enum.filter (fun p => postOk p.1)).map (fun p => p.2)
      if (List.range bodies.length).all (fun n => postOk n) then
        { s with
          extractions := promoted
          error := ""
          uploadState := "confirmed"
          tasksCreated := s.tasksCreated ++ created }
      else
        { s with
          extractions := promoted
          uploadState := "review"
          error := if failMsg = "" then "Failed to add tasks." else failMsg
          tasksCreated := s.tasksCreated ++ created }

/-- The `disabled` condition of the confirm button (App.jsx:1405-1412). -/
def confirmDisabled (s : ConfirmState) : Bool :=
  s.uploadState = "confirming" || s.extractions.length = 0

/-! ### Shared lemmas -/

lemma deadlineBonus_antitone {d1 d2 : Int} (h : d1 ≤ d2) :
    deadlineBonus (some d2) ≤ deadlineBonus (some d1) := by
  simp only [deadlineBonus]
  split_ifs <;> first | (exfalso; omega) | norm_num

lemma scoreToLevel_mono {s1 s2 : ℚ} (h : s1 ≤ s2) :
    riskOrder (scoreToLevel s1) ≤ riskOrder (scoreToLevel s2) := by
  simp only [scoreToLevel]
  split_ifs <;> simp [riskOrder] <;> linarith

lemma scoreToLevel_total (s : ℚ) :
    scoreToLevel s = "high" ∨ scoreToLevel s = "medium" ∨ scoreToLevel s = "low" := by
  simp only [scoreToLevel]
  split_ifs <;> simp

/-! ### Claim theorems: risk derivation -/

/-- Claim C7: risk is monotone in deadline proximity — for two tasks equal in
task type and importance whose due dates both parse, the one with fewer days
to its deadline gets a risk level at least as high (low < medium < high). -/
theorem deriveRisk_monotone_in_deadline (now : CivilDate) (t1 t2 : Task)
    (c1 c2 : CivilDate)
    (htype : t1.task_type = t2.task_type)
    (himp : t1.importance = t2.importance)
    (h1 : parseISODate t1.due_date = some c1)
    (h2 : parseISODate t2.due_date = some c2)
    (hle : daysUntilDate c1 now ≤ daysUntilDate c2 now) :
    riskOrder (deriveRisk now t2) ≤ riskOrder (deriveRisk now t1) := by
  have hd1 : daysToDeadline now t1 = some (daysUntilDate c1 now) := by
    simp [daysToDeadline, h1]
  have hd2 : daysToDeadline now t2 = some (daysUntilDate c2 now) := by
    simp [daysToDeadline, h2]
  simp only [deriveRisk, hd1, hd2, htype, himp]
  exact scoreToLevel_mono (by
    have hb := deadlineBonus_antitone hle
    linarith)

def wNow : CivilDate := ⟨2026, 10, 11⟩

def wTaskSoon : Task :=
  { id := 1, title := "Exam prep", course := some "CS 101",
    task_type := some "exam", due_date := some "2026-10-12",
    estimated_minutes := some 180, importance := .num 5, status := "pending" }

def wTaskLater : Task :=
  { wTaskSoon with id := 2, due_date := some "2026-10-24" }

/-- Witness for C7 at two concrete tasks 1 and 13 days from the reference
date. -/
theorem deriveRisk_monotone_in_deadline_witness :
    riskOrder (deriveRisk wNow wTaskLater) ≤ riskOrder (deriveRisk wNow wTaskSoon) :=
  deriveRisk_monotone_in_deadline wNow wTaskSoon wTaskLater
    ⟨2026, 10, 12⟩ ⟨2026, 10, 24⟩ rfl rfl (by decide) (by decide) (by decide)

/-- Claim C10: `deriveRisk` is total and fails closed — it always returns one
of the three levels, a missing or unknown task type weighs 1, a missing
importance coerces to 0 and a non-numeric one (`NaN`) adds no bonus, and a
missing or unparseable due date contributes no deadline bonus. -/
theorem deriveRisk_total_fails_closed :
    (∀ (now : CivilDate) (t : Task),
      deriveRisk now t = "high" ∨ deriveRisk now t = "medium"
        ∨ deriveRisk now t = "low")
    ∧ getTaskTypeWeight none = 1
    ∧ (∀ s : String,
        s ∉ (["assignment", "essay", "discussion", "project", "exam",
          "lecture"] : List String) → getTaskTypeWeight (some s) = 1)
    ∧ importanceNumber .absent = some 0
    ∧ importanceBonus (importanceNumber .nonNumeric) = 0
    ∧ (∀ (now : CivilDate) (t : Task), parseISODate t.due_date = none →
        deriveRisk now t
          = scoreToLevel (getTaskTypeWeight t.task_type
              + importanceBonus (importanceNumber t.importance))) := by
  refine ⟨fun now t => scoreToLevel_total _, rfl, ?_, rfl, rfl, ?_⟩
  · intro s hs
    simp only [List.mem_cons, List.not_mem_nil, or_false] at hs
    push_neg at hs
    obtain ⟨n1, n2, n3, n4, n5, n6⟩ := hs
    simp [getTaskTypeWeight, TASK_TYPE_WEIGHTS, n1, n2, n3, n4, n5, n6]
  · intro now t h
    simp [deriveRisk, daysToDeadline, h, deadlineBonus]

def wTaskBare : Task :=
  { id := 3, title := "Sort notes", course := none, task_type := some "chore",
    due_date := some "sometime soon", estimated_minutes := none,
    importance := .nonNumeric, status := "pending" }

/-- Witness for C10 at a task with an unknown type, a non-numeric importance
and an unparseable due date. -/
theorem deriveRisk_total_fails_closed_witness :
    getTaskTypeWeight (some "chore") = 1
      ∧ deriveRisk wNow wTaskBare
          = scoreToLevel (getTaskTypeWeight wTaskBare.task_type
              + importanceBonus (importanceNumber wTaskBare.importance))
      ∧ deriveRisk wNow wTaskBare = "low" :=
  ⟨deriveRisk_total_fails_closed.2.2.1 "chore" (by decide),
   deriveRisk_total_fails_closed.2.2.2.2.2 wNow wTaskBare (by decide),
   by
    rw [deriveRisk_total_fails_closed.2.2.2.2.2 wNow wTaskBare (by decide)]
    have hw : getTaskTypeWeight wTaskBare.task_type = 1 :=
      deriveRisk_total_fails_closed.2.2.1 "chore" (by decide)
    rw [hw]
    norm_num [importanceNumber, importanceBonus, wTaskBare, scoreToLevel]⟩

/-! ### Claim theorems: extraction defaults -/

/-- Claim C4: each extraction produced by the upload pipeline gets its
initial review status from its confidence against the 0.75 threshold, a
missing confidence counting as 0. -/
theorem extraction_initial_status (e : UploadEvent) :
    ((toExtraction e).status = "accepted" ↔ 3/4 ≤ e.confidence.getD 0)
    ∧ ((toExtraction e).status = "pending" ↔ e.confidence.getD 0 < 3/4)
    ∧ (e.confidence = none → (toExtraction e).status = "pending") := by
  refine ⟨?_, ?_, ?_⟩
  · simp only [toExtraction]
    split_ifs with h <;> simp [h]
  · simp only [toExtraction]
    split_ifs with h <;> simp [h] <;> try linarith
  · intro hc
    norm_num [toExtraction, hc]

def wEventHigh : UploadEvent :=
  { id := 1, title := "Essay draft", date := some "2026-11-02",
    type := some "essay", confidence := some (4/5) }

def wEventLow : UploadEvent :=
  { id := 2, title := "Reading", date := some "2026-11-03",
    type := some "reading", confidence := some (2/5) }

def wEventNone : UploadEvent :=
  { id := 3, title := "Quiz", date := none, type := some "quiz",
    confidence := none }

/-- Witness for C4: confidence 0.80 is accepted, 0.40 is pending, and a
missing confidence is pending. -/
theorem extraction_initial_status_witness :
    (toExtraction wEventHigh).status = "accepted"
      ∧ (toExtraction wEventLow).status = "pending"
      ∧ (toExtraction wEventNone).status = "pending" :=
  ⟨(extraction_initial_status wEventHigh).1.mpr (by norm_num [wEventHigh]),
   (extraction_initial_status wEventLow).2.1.mpr (by norm_num [wEventLow]),
   (extraction_initial_status wEventNone).2.2 rfl⟩

/-! ### Claim theorems: determinism -/

/-- Claim C8: recommendation generation is deterministic — two runs over
identical task sets with the same reference clock emit identical
recommendation lists (content and order). -/
theorem recommendations_deterministic (now1 now2 : CivilDate)
    (ts1 ts2 : List Task) (hts : ts1 = ts2) (hnow : now1 = now2) :
    recommendations now1 ts1 = recommendations now2 ts2 := by
  rw [hts, hnow]

/-- Witness for C8 at a concrete clock and task set. -/
theorem recommendations_deterministic_witness :
    recommendations wNow [wTaskSoon] = recommendations wNow [wTaskSoon] :=
  recommendations_deterministic wNow wNow [wTaskSoon] [wTaskSoon] rfl rfl

/-! ### Claim theorems: aggregate risk score and banding -/

lemma riskCounts_foldl_sum (now : CivilDate) (l : List Task) (c : RiskCounts) :
    (l.foldl (riskCountsStep now) c).high + (l.foldl (riskCountsStep now) c).medium
        + (l.foldl (riskCountsStep now) c).low
      = c.high + c.medium + c.low + l.length := by
  induction l generalizing c with
  | nil => simp
  | cons a l ih =>
    rw [List.foldl_cons, ih]
    simp only [riskCountsStep]
    split_ifs <;> simp <;> omega

lemma riskCounts_sum (now : CivilDate) (ts : List Task) :
    (riskCounts now ts).high + (riskCounts now ts).medium
        + (riskCounts now ts).low = (activeTasks ts).length := by
  simpa using riskCounts_foldl_sum now (activeTasks ts) ⟨0, 0, 0⟩

lemma rawScore_bounds (h m l total : ℕ) (hsum : h + m + l = total)
    (hpos : 0 < total) :
    0 ≤ ((h : ℚ) * 1 + m * (3/5) + l * (1/5)) / total
      ∧ ((h : ℚ) * 1 + m * (3/5) + l * (1/5)) / total ≤ 1 := by
  have htot : (0 : ℚ) < total := by exact_mod_cast hpos
  have hm : (0 : ℚ) ≤ m := by positivity
  have hl : (0 : ℚ) ≤ l := by positivity
  have hh : (0 : ℚ) ≤ h := by positivity
  have hcast : (h : ℚ) + m + l = total := by exact_mod_cast hsum
  constructor
  · positivity
  · rw [div_le_one htot]
    linarith

lemma toFixed2_bounds {q : ℚ} (h0 : 0 ≤ q) (h1 : q ≤ 1) :
    0 ≤ toFixed2 q ∧ toFixed2 q ≤ 1 := by
  unfold toFixed2
  have hl : (0 : ℤ) ≤ round (100 * q) := by
    rw [round_eq, Int.le_floor]
    push_cast
    linarith
  have hu : round (100 * q) ≤ 100 := by
    rw [round_eq]
    have : (100 : ℤ) < 101 := by norm_num
    rw [show (100 : ℤ) = 101 - 1 by norm_num, Int.le_sub_one_iff, Int.floor_lt]
    push_cast
    linarith
  constructor
  · apply div_nonneg _ (by norm_num)
    exact_mod_cast hl
  · rw [div_le_one (by norm_num)]
    exact_mod_cast hu

/-- Claim C9: with at least one active task the aggregate risk score is a
rational in [0, 1] and the displayed label follows the fixed threshold
table: "High" iff score ≥ 0.6, "Moderate" iff 0.35 ≤ score < 0.6, "Low"
iff score < 0.35. -/
theorem riskScore_in_range_and_banded (now : CivilDate) (ts : List Task)
    (hne : activeTasks ts ≠ []) :
    ∃ s : ℚ, riskScore now ts = some s ∧ 0 ≤ s ∧ s ≤ 1
      ∧ (riskLabel now ts = "High" ↔ 3/5 ≤ s)
      ∧ (riskLabel now ts = "Moderate" ↔ 7/20 ≤ s ∧ s < 3/5)
      ∧ (riskLabel now ts = "Low" ↔ s < 7/20) := by
  have htot : (activeTasks ts).length ≠ 0 := by
    intro h
    exact hne (List.eq_nil_of_length_eq_zero h)
  have hscore : riskScore now ts
      = some (toFixed2 (((riskCounts now ts).high * 1
          + (riskCounts now ts).medium * (3/5)
          + (riskCounts now ts).low * (1/5)) / (activeTasks ts).length)) := by
    simp [riskScore, htot]
  have hraw := rawScore_bounds (riskCounts now ts).high (riskCounts now ts).medium
    (riskCounts now ts).low (activeTasks ts).length (riskCounts_sum now ts)
    (Nat.pos_of_ne_zero htot)
  have hb := toFixed2_bounds hraw.1 hraw.2
  refine ⟨_, hscore, hb.1, hb.2, ?_, ?_, ?_⟩ <;>
    simp only [riskLabel, hscore] <;> split_ifs with hh1 hh2 <;> simp_all <;>
      linarith

/-- Witness for C9 at a singleton task list. -/
theorem riskScore_in_range_and_banded_witness :
    activeTasks [wTaskSoon] ≠ []
      ∧ ∃ s : ℚ, riskScore wNow [wTaskSoon] = some s ∧ 0 ≤ s ∧ s ≤ 1
          ∧ (riskLabel wNow [wTaskSoon] = "High" ↔ 3/5 ≤ s)
          ∧ (riskLabel wNow [wTaskSoon] = "Moderate" ↔ 7/20 ≤ s ∧ s < 3/5)
          ∧ (riskLabel wNow [wTaskSoon] = "Low" ↔ s < 7/20) :=
  ⟨by decide, riskScore_in_range_and_banded wNow [wTaskSoon] (by decide)⟩

/-! ### Claim theorems: recommendation ladder -/

/-- Claim C6: `recommendations` is a fixed-priority rule ladder — the four
rules are evaluated in a fixed order, each contributes at most one message,
at most 3 messages are emitted, the output is a sublist (in order) of the
four rule messages when any rule fires, and exactly one default
encouragement message is emitted when none fires. -/
theorem recommendations_rule_ladder (now : CivilDate) (ts : List Task) :
    (1 ≤ (recommendations now ts).length ∧ (recommendations now ts).length ≤ 3)
    ∧ (rule1 now ts = none → rule2 now ts = none → rule3 now ts = none →
        rule4 ts = none → recommendations now ts = [recommendationsDefault])
    ∧ (recommendations now ts = [recommendationsDefault]
        ∨ List.Sublist (recommendations now ts)
            ((rule1 now ts).toList ++ (rule2 now ts).toList
              ++ (rule3 now ts).toList ++ (rule4 ts).toList)) := by
  cases h1 : rule1 now ts <;> cases h2 : rule2 now ts <;>
    cases h3 : rule3 now ts <;> cases h4 : rule4 ts <;>
      simp [recommendations, pushCapped, h1, h2, h3, h4]

/-- Witness for C6: with no tasks no rule fires and exactly the default
message is emitted. -/
theorem recommendations_rule_ladder_witness :
    recommendations wNow ([] : List Task) = [recommendationsDefault] :=
  (recommendations_rule_ladder wNow []).2.1 rfl rfl rfl rfl

/-! ### Claim theorems: confirm flow -/

lemma enumFrom_map_snd {α : Type} (n : Nat) (l : List α) :
    ((List.enumFrom n l).map (fun p => p.2)) = l := by
  induction l generalizing n with
  | nil => rfl
  | cons a l ih => simp [List.enumFrom, ih]

/-- Settled state of `handleConfirm` when some extraction is accepted, every
accepted title is nonempty after trimming, and every POST succeeds: exactly
the accepted extractions are materialized, the syllabus flow reaches
`confirmed`, and the review statuses are left unchanged. -/
lemma handleConfirm_allOk (courseLabel : Option String) (failMsg : String)
    (s : ConfirmState)
    (hu : s.userId ≠ none)
    (hacc : s.extractions.filter (fun i => i.status = "accepted") ≠ [])
    (htitle : (s.extractions.filter (fun i => i.status = "accepted")).filter
      (fun i => strTrim i.title = "") = []) :
    handleConfirm courseLabel (fun _ => true) failMsg s
      = { s with
          error := ""
          uploadState := "confirmed"
          tasksCreated := s.tasksCreated
            ++ (s.extractions.filter (fun i => i.status = "accepted")).map
                (mkTaskBody courseLabel) } := by
  obtain ⟨uid, huid⟩ := Option.ne_none_iff_exists'.mp hu
  have h1 : s.userId.isNone = false := by rw [huid]; rfl
  have h2 : s.extractions.isEmpty = false := by
    cases hx : s.extractions with
    | nil => exact absurd (by rw [hx]; rfl) hacc
    | cons a l => rfl
  have h3 : (s.extractions.filter (fun i => i.status = "accepted")).isEmpty
      = false := by
    cases hx : s.extractions.filter (fun i => i.status = "accepted") with
    | nil => exact absurd hx hacc
    | cons a l => rfl
  simp [handleConfirm, h1, h2, h3, htitle, enumFrom_map_snd, List.enum]

/-- Settled state of `handleConfirm` when no extraction is accepted but some
is not rejected, their titles trim nonempty, and every POST succeeds: every
non-rejected extraction is promoted to accepted and materialized. -/
lemma handleConfirm_promoteAll (courseLabel : Option String) (failMsg : String)
    (s : ConfirmState)
    (hu : s.userId ≠ none)
    (hacc : s.extractions.filter (fun i => i.status = "accepted") = [])
    (hcand : s.extractions.filter (fun i => i.status ≠ "rejected") ≠ [])
    (htitle : (s.extractions.filter (fun i => i.status ≠ "rejected")).filter
      (fun i => strTrim i.title = "") = []) :
    handleConfirm courseLabel (fun _ => true) failMsg s
      = { s with
          extractions := s.extractions.map (fun i =>
            if i.status ≠ "rejected" then { i with status := "accepted" } else i)
          error := ""
          uploadState := "confirmed"
          tasksCreated := s.tasksCreated
            ++ (s.extractions.filter (fun i => i.status ≠ "rejected")).map
                (mkTaskBody courseLabel) } := by
  obtain ⟨uid, huid⟩ := Option.ne_none_iff_exists'.mp hu
  have h1 : s.userId.isNone = false := by rw [huid]; rfl
  have h2 : s.extractions.isEmpty = false := by
    cases hx : s.extractions with
    | nil => exact absurd (by rw [hx]; rfl) hcand
    | cons a l => rfl
  have h3 : (s.extractions.filter (fun i => i.status = "accepted")).isEmpty
      = true := by rw [hacc]; rfl
  have h4 : (s.extractions.filter (fun i => i.status ≠ "rejected")).isEmpty
      = false := by
    cases hx : s.extractions.filter (fun i => i.status ≠ "rejected") with
    | nil => exact absurd hx hcand
    | cons a l => rfl
  have hcond1 : ¬(∀ a ∈ s.extractions, a.status = "rejected") := by
    intro hall
    apply hcand
    rw [List.filter_eq_nil_iff]
    intro a ha
    simp [hall a ha]
  have hcond2 : ¬(∃ x ∈ s.extractions,
      strTrim x.title = "" ∧ ¬x.status = "rejected") := by
    rintro ⟨x, hx, hxt, hxr⟩
    have hmem : x ∈ (s.extractions.filter (fun i => i.status ≠ "rejected")).filter
        (fun i => strTrim i.title = "") := by
      simp [List.mem_filter, hx, hxr, hxt]
    rw [htitle] at hmem
    exact absurd hmem (List.not_mem_nil x)
  simp [handleConfirm, h1, h2, h3, h4, hcond1, hcond2, enumFrom_map_snd,
    List.enum]

/-- Claim C5 (per-extraction materialization): under the confirm
preconditions, with every POST succeeding, exactly one task is created per
accepted extraction (none for rejected or pending ones, since the created
list is precisely the map over the accepted filter), each created task has
status `pending`, and the flow reaches `confirmed`. -/
theorem confirm_materializes_accepted (courseLabel : Option String)
    (failMsg : String) (s : ConfirmState)
    (hu : s.userId ≠ none)
    (hacc : s.extractions.filter (fun i => i.status = "accepted") ≠ [])
    (htitle : (s.extractions.filter (fun i => i.status = "accepted")).filter
      (fun i => strTrim i.title = "") = []) :
    (handleConfirm courseLabel (fun _ => true) failMsg s).tasksCreated
        = s.tasksCreated
          ++ (s.extractions.filter (fun i => i.status = "accepted")).map
              (mkTaskBody courseLabel)
    ∧ (handleConfirm courseLabel (fun _ => true) failMsg s).uploadState
        = "confirmed"
    ∧ (handleConfirm courseLabel (fun _ => true) failMsg s).tasksCreated.length
        = s.tasksCreated.length
          + (s.extractions.filter (fun i => i.status = "accepted")).length
    ∧ ∀ t ∈ (s.extractions.filter (fun i => i.status = "accepted")).map
        (mkTaskBody courseLabel), t.status = "pending" := by
  have h := handleConfirm_allOk courseLabel failMsg s hu hacc htitle
  refine ⟨by rw [h], by rw [h], by rw [h]; simp, ?_⟩
  intro t ht
  obtain ⟨i, _, hi⟩ := List.mem_map.mp ht
  rw [← hi]
  rfl

def wExtAccepted : ExtractionItem :=
  { id := 1, title := "Problem set 1", dueDate := some "2026-10-20",
    type := "assignment", taskType := some "assignment", confidence := 9/10,
    status := "accepted" }

def wExtAccepted2 : ExtractionItem :=
  { id := 2, title := "Midterm", dueDate := some "2026-11-05",
    type := "exam", taskType := some "exam", confidence := 4/5,
    status := "accepted" }

def wExtRejected : ExtractionItem :=
  { id := 3, title := "Office hours", dueDate := some "2026-10-15",
    type := "other", taskType := none, confidence := 1/2,
    status := "rejected" }

def wExtPending : ExtractionItem :=
  { id := 4, title := "Lab report", dueDate := some "2026-10-28",
    type := "lab", taskType := some "assignment", confidence := 3/5,
    status := "pending" }

def wReviewState : ConfirmState :=
  { userId := some "user-1", fileName := "CS101_Syllabus.pdf",
    uploadState := "review", error := "",
    extractions := [wExtAccepted, wExtAccepted2, wExtRejected],
    tasksCreated := [] }

/-- Witness for C5: confirming 3 extractions of which 2 are accepted and 1
rejected creates exactly 2 tasks. -/
theorem confirm_materializes_accepted_witness :
    (handleConfirm none (fun _ => true) "" wReviewState).tasksCreated.length = 2
      ∧ (handleConfirm none (fun _ => true) "" wReviewState).uploadState
          = "confirmed" := by
  have h := confirm_materializes_accepted none "" wReviewState
    (by decide) (by decide) (by decide)
  refine ⟨?_, h.2.1⟩
  rw [h.2.2.1]
  decide

/-- Claim C3 (corrected): pending items are auto-promoted and materialized
only when no extraction is accepted; when at least one is accepted, only the
accepted ones are materialized and the pending ones are neither promoted nor
materialized. -/
theorem confirm_promotion_only_without_accepted (courseLabel : Option String)
    (failMsg : String) (s : ConfirmState) (hu : s.userId ≠ none) :
    (s.extractions.filter (fun i => i.status = "accepted") = [] →
      s.extractions.filter (fun i => i.status ≠ "rejected") ≠ [] →
      (s.extractions.filter (fun i => i.status ≠ "rejected")).filter
        (fun i => strTrim i.title = "") = [] →
      handleConfirm courseLabel (fun _ => true) failMsg s
        = { s with
            extractions := s.extractions.map (fun i =>
              if i.status ≠ "rejected" then { i with status := "accepted" }
              else i)
            error := ""
            uploadState := "confirmed"
            tasksCreated := s.tasksCreated
              ++ (s.extractions.filter (fun i => i.status ≠ "rejected")).map
                  (mkTaskBody courseLabel) })
    ∧ (s.extractions.filter (fun i => i.status = "accepted") ≠ [] →
      (s.extractions.filter (fun i => i.status = "accepted")).filter
        (fun i => strTrim i.title = "") = [] →
      (handleConfirm courseLabel (fun _ => true) failMsg s).extractions
          = s.extractions
        ∧ (handleConfirm courseLabel (fun _ => true) failMsg s).tasksCreated
            = s.tasksCreated
              ++ (s.extractions.filter (fun i => i.status = "accepted")).map
                  (mkTaskBody courseLabel)) := by
  constructor
  · intro hacc hcand htitle
    exact handleConfirm_promoteAll courseLabel failMsg s hu hacc hcand htitle
  · intro hacc htitle
    have h := handleConfirm_allOk courseLabel failMsg s hu hacc htitle
    exact ⟨by rw [h], by rw [h]⟩

/-- Counterexample for C3 as stated: a set holding one accepted and one
pending extraction; confirm materializes only the accepted one (one task,
not two) and the pending item stays `pending` (it is not promoted). -/
theorem confirm_ignores_pending_when_accepted_exists :
    (handleConfirm none (fun _ => true) ""
        { userId := some "user-1", fileName := "", uploadState := "review",
          error := "", extractions := [wExtAccepted, wExtPending],
          tasksCreated := [] }).tasksCreated.length = 1
      ∧ (handleConfirm none (fun _ => true) ""
          { userId := some "user-1", fileName := "", uploadState := "review",
            error := "", extractions := [wExtAccepted, wExtPending],
            tasksCreated := [] }).extractions.map (fun i => i.status)
        = ["accepted", "pending"]
      ∧ (handleConfirm none (fun _ => true) ""
          { userId := some "user-1", fileName := "", uploadState := "review",
            error := "", extractions := [wExtAccepted, wExtPending],
            tasksCreated := [] }).uploadState = "confirmed" := by
  refine ⟨?_, ?_, ?_⟩ <;> decide

def wAllPendingState : ConfirmState :=
  { userId := some "user-1", fileName := "", uploadState := "review",
    error := "", extractions := [wExtPending, wExtRejected],
    tasksCreated := [] }

/-- Witness for the amended C3: with no accepted item, the pending item is
promoted and materialized while the rejected one is not. -/
theorem confirm_promotion_only_without_accepted_witness :
    (handleConfirm none (fun _ => true) "" wAllPendingState).extractions.map
        (fun i => i.status) = ["accepted", "rejected"]
      ∧ (handleConfirm none (fun _ => true) "" wAllPendingState).tasksCreated.length
          = 1 := by
  have h := (confirm_promotion_only_without_accepted none "" wAllPendingState
    (by decide)).1 (by decide) (by decide) (by decide)
  rw [h]
  refine ⟨by decide, by decide⟩

/-- Claim C1 (code bug): re-confirming after a successful confirm is not a
no-op error — the confirm button is not disabled in the `confirmed` state
and a second `handleConfirm` run creates the tasks again (duplicates) with
no error surfaced. -/
theorem reconfirm_creates_duplicate_tasks :
    (handleConfirm none (fun _ => true) "" wReviewState).uploadState
        = "confirmed"
      ∧ (handleConfirm none (fun _ => true) "" wReviewState).tasksCreated.length
          = 2
      ∧ confirmDisabled (handleConfirm none (fun _ => true) "" wReviewState)
          = false
      ∧ (handleConfirm none (fun _ => true) ""
            (handleConfirm none (fun _ => true) "" wReviewState)).tasksCreated.length
          = 4
      ∧ (handleConfirm none (fun _ => true) ""
            (handleConfirm none (fun _ => true) "" wReviewState)).error = "" := by
  refine ⟨?_, ?_, ?_, ?_, ?_⟩ <;> decide

def wTwoAcceptedState : ConfirmState :=
  { userId := some "user-1", fileName := "", uploadState := "review",
    error := "", extractions := [wExtAccepted, wExtAccepted2],
    tasksCreated := [] }

/-- Claim C2 (code bug): materialization is not all-or-nothing — with two
qualifying extractions and the second POST failing, exactly one task is
created and survives (a proper subset), while the flow returns to review
with an error. -/
theorem confirm_partial_failure_leaves_subset :
    ((wTwoAcceptedState.extractions.filter
        (fun i => i.status = "accepted")).length = 2)
      ∧ (handleConfirm none (fun n => n == 0) "" wTwoAcceptedState).tasksCreated.length
          = 1
      ∧ (handleConfirm none (fun n => n == 0) "" wTwoAcceptedState).uploadState
          = "review"
      ∧ (handleConfirm none (fun n => n == 0) "" wTwoAcceptedState).error
          = "Failed to add tasks." := by
  refine ⟨?_, ?_, ?_, ?_⟩ <;> decide

end StudyPlanner
